import Mathlib

/-!
Shallow embedding of the clause-recommendation service in `src/example.py`
(FastAPI app of the ai-taxonomy-audit repository).

The repository ships a single visible source file, `src/example.py`; the
helper module `utils` that it imports is not part of the visible sources.
Definitions below that embed code of `src/example.py` carry a doc comment
naming the embedded lines; definitions standing in for the missing `utils`
helpers are marked `Modelled from the spec:` and follow the wording of
`spec.md`.

External collaborators (the completion service, the sentence/embedding
models, MD5 hashing, file-format conversion) are opaque functions bundled
in an environment record `Env`, mirroring the process-wide globals of the
source file.
-/

namespace ClauseAudit

/-- A vector produced by the (opaque) embedding model `utils.encode_text`. -/
abbrev Embedding := List Int

/-- Raw uploaded file content (the byte string `await file.read()`). -/
abbrev Content := List Nat

/-- One chat message, as in the `messages` lists of `find_clauses`
(src/example.py:306-315): a role tag and a content string. -/
structure Message where
  role : String
  content : String
deriving DecidableEq

/-- One parsed selection row, as produced by `utils.parse_response`: the
columns `"Clause Name"` and `"Reasoning"` (spec §3, `SelectionResult`). -/
structure SelRow where
  clauseName : String
  reasoning : String
deriving DecidableEq

/-- A value stored in the module-level `embedding_cache` dict
(src/example.py:183-186): the embedding and the extracted text. -/
structure CacheEntry where
  embedding : Embedding
  text : String
deriving DecidableEq

/-- The module-level `embedding_cache` dict (src/example.py:92), keyed by
the MD5 hex digest of the file content. -/
abbrev Cache := String → Option CacheEntry

/-- The empty cache (the dict at process start). -/
def emptyCache : Cache := fun _ => none

/-- Embeds the dict assignment `embedding_cache[file_hash] = {...}`
(src/example.py:183): stores under the key, overwriting any previous
entry; other keys are untouched. -/
def cachePut (c : Cache) (k : String) (e : CacheEntry) : Cache :=
  fun g => if g = k then some e else c g

/-- Embeds the lookup-and-delete sequence of src/example.py:275-279
(`if file_hash in embedding_cache: ... del embedding_cache[file_hash]`):
returns the entry if present together with the cache after removal;
on a miss the cache is unchanged. -/
def cacheTake (c : Cache) (k : String) : Option CacheEntry × Cache :=
  match c k with
  | some e => (some e, fun g => if g = k then none else c g)
  | none => (none, c)

/-- Models Python's `str.lower()` on the ASCII range (the file names and
extensions the gate compares are ASCII): lowercases every character. -/
def lowerStr (s : String) : String := ⟨s.data.map Char.toLower⟩

/-- Models Python's `str.endswith(p)`: suffix test on the characters. -/
def endsWithStr (s p : String) : Bool := p.data.isSuffixOf s.data

/-- Models Python's slice `s[:n]`: the first `n` characters. -/
def takeStr (s : String) (n : Nat) : String := ⟨s.data.take n⟩

/-- Models Python's `str.strip()`: drops leading and trailing
whitespace. -/
def stripStr (s : String) : String :=
  ⟨((s.data.dropWhile Char.isWhitespace).reverse.dropWhile Char.isWhitespace).reverse⟩

/-- Left-to-right, non-overlapping replacement of `pat` by `rep`,
fuelled to keep the recursion structural. -/
def replaceFuel (rep : List Char) : Nat → List Char → List Char → List Char
  | 0, as, _ => as
  | _ + 1, [], _ => []
  | fuel + 1, a :: as, pat =>
    if pat.isPrefixOf (a :: as) then
      rep ++ replaceFuel rep fuel ((a :: as).drop pat.length) pat
    else
      a :: replaceFuel rep fuel as pat

/-- Models Python's `str.replace(pat, rep)` for nonempty `pat`:
replaces every (leftmost, non-overlapping) occurrence. -/
def replaceStr (s pat rep : String) : String :=
  ⟨replaceFuel rep.data s.data.length s.data pat.data⟩

/-- The `allowed_extensions` list of src/example.py:119 and 251 (the same
literal appears in both endpoints). -/
def allowed_extensions : List String := [".txt", ".pdf", ".docx", ".doc", ".md"]

/-- Embeds the file-extension gate
`any(file.filename.lower().endswith(ext) for ext in allowed_extensions)`
(src/example.py:120 and 252). -/
def extensionAllowed (filename : String) : Bool :=
  allowed_extensions.any (fun ext => endsWithStr (lowerStr filename) ext)

/-- The rejection message of src/example.py:123 and 255:
`f"Only {', '.join(allowed_extensions)} files are supported."`. -/
def extensionErrorMessage : String :=
  let exts := String.intercalate ", " allowed_extensions
  s!"Only {exts} files are supported."

/-- Length of a longest common subsequence of two character lists
(structural recursion in Ackermann style so that concrete instances
reduce in the kernel). -/
def lcsAux (a : Char) (f : List Char → Nat) : List Char → Nat
  | [] => 0
  | b :: bs => if a = b then f bs + 1 else max (lcsAux a f bs) (f (b :: bs))

/-- Longest-common-subsequence length of two character lists. -/
def lcsLen : List Char → List Char → Nat
  | [], _ => 0
  | a :: as, bs => lcsAux a (lcsLen as) bs

/-- Modelled from the spec: the similarity measure behind
`utils.get_close_matches`. The spec (§4.3 Validation) prescribes a fuzzy
containment check with similarity cutoff 0.8; similarity is modelled as
the Ratcliff/Obershelp ratio `2*M/(|a|+|b|)` with `M` a longest common
subsequence length, so the cutoff test `ratio >= 0.8` is the integer
test `5*2*M >= 4*(|a|+|b|)`. -/
def simCutoff (a b : String) : Bool :=
  2 * (a.length + b.length) ≤ 5 * lcsLen a.data b.data

/-- Modelled from the spec: `utils.get_close_matches(target, names, n=1,
cutoff=0.8)` (called at src/example.py:388). Returns up to one corpus
name whose similarity to `target` meets the 0.8 cutoff; the caller only
tests emptiness. -/
def get_close_matches (target : String) (names : List String) : List String :=
  (names.filter (fun n => simCutoff target n)).take 1

/-- The `DEFAULT_MODEL` constant of src/example.py:30. -/
def DEFAULT_MODEL : String := "tngtech/deepseek-r1t2-chimera:free"

/-- The environment of opaque collaborators and load-once data that
src/example.py keeps as module-level globals (lines 82-105): corpus
tables from `utils.getting_started`, the clustering / projection models,
the embedding model, the completion-service client and its configured
model, and the enrichment tables. Each field is the input/output
contract of a collaborator the spec treats as opaque (§1 non-goals,
§9). -/
structure Env where
  /-- `utils.convert_file_to_text(content, filename)`; an `Except.error`
  models the raised exception caught at src/example.py:263-271. -/
  convertFileToText : Content → String → Except String String
  /-- `hashlib.md5(content).hexdigest()` (src/example.py:181, 274). -/
  md5 : Content → String
  /-- `utils.encode_text(text, tokenizer, c_model)` (src/example.py:182, 282). -/
  encodeText : String → Embedding
  /-- The `umap_model` projection into clustering space (spec §4.2:
  used only to project the embedding; never exposed). -/
  umapProject : Embedding → Embedding
  /-- The clustering model `clf`'s label assignment for a projected
  embedding; `none` models the degenerate-input failure mode of spec
  §4.2 (empty cluster set, pipeline proceeds). -/
  assignCluster : Embedding → Option Nat
  /-- Cluster label of a corpus entry, from the `clause_tags` table
  (src/example.py:83). -/
  clusterTag : String → Option Nat
  /-- Bag-of-words similarity between query text and a corpus document
  (spec §4.2: cosine over term-frequency vectors; opaque scoring). -/
  bowSim : String → String → Rat
  /-- Embedding-space similarity used to re-rank the bow pool
  (spec §4.2 step 2). -/
  embSim : Embedding → Embedding → Rat
  /-- The corpus file-name list `names` from `utils.getting_started`
  (src/example.py:82); keys carry the `.txt` suffix. -/
  names : List String
  /-- The corpus document texts `docs`, positionally aligned with
  `names` (src/example.py:82). -/
  docs : List String
  /-- The configured completion model `OPENROUTER_MODEL`
  (src/example.py:96: the env var, defaulting to `DEFAULT_MODEL`). -/
  OPENROUTER_MODEL : String
  /-- The completion service: model identifier and message list to the
  reply content `response.choices[0].message.content`. Deterministic
  (temperature 0, spec §4.3). -/
  complete : String → List Message → String
  /-- `utils.parse_response` (src/example.py:375, 412): parses a reply
  into rows, `none` on parse failure. -/
  parseResponse : String → Option (List SelRow)
  /-- `name_to_child.get(clause_name, "")` (src/example.py:430). -/
  nameToChild : String → String
  /-- `name_to_url.get(clause_name, "")` (src/example.py:431). -/
  nameToUrl : String → String
  /-- The emission enrichment of src/example.py:422,433
  (`utils.get_emission_label` joined labels fed through
  `utils.parse_emissions_sources`), keyed by the row's clause name;
  a missing lookup yields `[]`, never an error (spec §4.5). -/
  emissionsFor : String → List String

/-- The bag-of-words similarity threshold `similarity_threshold=0.1` of
src/example.py:285, as the rational 1/10 (written as an explicit
normal form so that comparisons compute). -/
def bowThreshold : Rat := ⟨1, 10, by decide, by decide⟩

/-- A candidate clause row of the shared dataframe of
src/example.py:291-302: columns `text`, `source_name`, `matched_by`. -/
structure Candidate where
  text : String
  source_name : String
  matched_by : String
deriving DecidableEq

/-- Modelled from the spec (§4.2 step 1): `utils.perform_cluster`
(src/example.py:284). Projects the query embedding, assigns one cluster
label, and returns every corpus entry sharing that label (name-doc
pairs); an unassignable input yields the empty set. -/
def perform_cluster (env : Env) (query_embedding : Embedding) : List (String × String) :=
  match env.assignCluster (env.umapProject query_embedding) with
  | some cid => (env.names.zip env.docs).filter (fun p => env.clusterTag p.1 = some cid)
  | none => []

/-- Modelled from the spec (§4.2 step 2): `utils.find_top_similar_bow`
with `similarity_threshold=0.1, k=20` (src/example.py:285). Keeps the
corpus documents whose bag-of-words similarity to the query exceeds the
threshold, sorts them by that similarity in descending order, and keeps
the top 20 as the first-stage pool of name-doc pairs. -/
def find_top_similar_bow (env : Env) (target_doc : String) : List (String × String) :=
  let kept := (env.names.zip env.docs).filter
    (fun p => bowThreshold < env.bowSim target_doc p.2)
  (kept.insertionSort
    (fun a b => env.bowSim target_doc b.2 ≤ env.bowSim target_doc a.2)).take 20

/-- Modelled from the spec (§4.2 step 2): `utils.get_embedding_matches_subset`
with `k=5` (src/example.py:288). Re-ranks the bow pool by embedding
similarity to the query embedding and keeps the top 5. -/
def get_embedding_matches_subset (env : Env) (query_embedding : Embedding)
    (pool : List (String × String)) : List (String × String) :=
  (pool.insertionSort
    (fun a b => env.embSim query_embedding (env.encodeText b.2)
      ≤ env.embSim query_embedding (env.encodeText a.2))).take 5

/-- Embeds `df_cluster` (src/example.py:291-295): the cluster-matched
pairs tagged `matched_by="cluster"`. -/
def df_cluster (env : Env) (query_embedding : Embedding) : List Candidate :=
  (perform_cluster env query_embedding).map (fun p => ⟨p.2, p.1, "cluster"⟩)

/-- Embeds `df_bow` (src/example.py:297-301): the bow-matched pairs
tagged `matched_by="bow"`, capped by `.head(5)`. -/
def df_bow (env : Env) (query_text : String) (query_embedding : Embedding) : List Candidate :=
  ((get_embedding_matches_subset env query_embedding
      (find_top_similar_bow env query_text)).map (fun p => ⟨p.2, p.1, "bow"⟩)).take 5

/-- Embeds `combined_df = pd.concat([df_cluster, df_bow])`
(src/example.py:302): plain concatenation, cluster rows first. -/
def combined_df (env : Env) (query_text : String) (query_embedding : Embedding) :
    List Candidate :=
  df_cluster env query_embedding ++ df_bow env query_text query_embedding

/-- The number of corpus entries sharing the assigned cluster label
(the bound of spec §4.2: "cluster size for the assigned cluster"). -/
def clusterSize (env : Env) (query_embedding : Embedding) : Nat :=
  (perform_cluster env query_embedding).length

/-- The system message of src/example.py:307-310 (verbatim). -/
def systemMessage : Message :=
  ⟨"system", "You are a legal AI assistant that helps review and select climate-aligned clauses for the uploaded document. You can only select from those clauses provided to you. We are trying to help the writers of the document integrate climate-aligned language."⟩

/-- The opening `messages` list of src/example.py:306-315: the system
message plus the user message carrying the stripped 1000-character
document excerpt. The prose of the user message is abridged (it is
inert to every claim); its structure - greeting, excerpt, request for a
confirmation - follows src/example.py:313. -/
def initialMessages (query_text_short : String) : List Message :=
  let excerpt := stripStr query_text_short
  [systemMessage,
   ⟨"user", s!"Here is the contract:\n\n{excerpt}\n\nI will send you some clauses next. For now, just confirm you have read the contract and are ready to receive the clauses. A short summary of the content of the contract would be fine."⟩]

/-- The fixed rule text appended to the clause block
(src/example.py:337-364); prose abridged, inert to every claim. -/
def selectionRules : String :=
  "Select the clauses from the list that best align with the contract. Follow the rules: respond with a JSON of exactly as many objects as selected clauses, each with the keys \"Clause Name\" and \"Reasoning\"; only select from the clauses provided - do not invent new ones."

/-- Embeds the `clause_block` construction of src/example.py:327-364:
a header, one numbered stanza per candidate row (name, matched-by
method, full text), then the rule text. -/
def clause_block (cands : List Candidate) : String :=
  let stanzas := cands.enum.map (fun p =>
    let i := p.1 + 1
    let c := p.2
    let nm := c.source_name
    let mb := c.matched_by
    let tx := c.text
    s!"Clause {i}\nName: {nm}\nMethod: {mb}\nFull Text:\n{tx}\n\n")
  String.join ("Here are the clauses:\n\n" :: stanzas) ++ selectionRules

/-- A completion-service call record: the arguments of one
`client.chat.completions.create(...)` invocation (model, temperature,
optional token cap) plus which protocol step issued it. -/
structure CompletionCall where
  model : String
  temperature : Nat
  maxTokens : Option Nat
  purpose : String
deriving DecidableEq

/-- The context-confirmation reply `assistant_reply_1`
(src/example.py:317-324): first completion call, configured model,
temperature 0, `max_tokens=1000`. -/
def contextReply (env : Env) (query_text_short : String) : String :=
  env.complete env.OPENROUTER_MODEL (initialMessages query_text_short)

/-- The message list of the selection call (src/example.py:325,366):
the opening messages extended with the assistant's confirmation and the
clause block. -/
def selectionMessages (env : Env) (query_text_short : String)
    (cands : List Candidate) : List Message :=
  initialMessages query_text_short
    ++ [⟨"assistant", contextReply env query_text_short⟩,
        ⟨"user", clause_block cands⟩]

/-- The first selection reply `response_text` (src/example.py:368-374):
second completion call, configured model, temperature 0. -/
def firstSelectionReply (env : Env) (query_text_short : String)
    (cands : List Candidate) : String :=
  env.complete env.OPENROUTER_MODEL (selectionMessages env query_text_short cands)

/-- Embeds the validation loop of src/example.py:384-390: the proposed
clause names (raw, without suffix) for which
`get_close_matches(clause + ".txt", names, n=1, cutoff=0.8)` finds no
close corpus name. -/
def missingOf (env : Env) (rows : List SelRow) : List String :=
  (rows.filter (fun r =>
    (get_close_matches (r.clauseName ++ ".txt") env.names).isEmpty)).map
    (fun r => r.clauseName)

/-- The corrective user message of src/example.py:396-404, naming the
invalid entries. -/
def correctionMessage (missing : List String) : Message :=
  let ms := String.intercalate ", " missing
  ⟨"user", s!"One of the clauses you recommended ({ms}) was not in the provided set. Do not hallucinate: only pick from the list I gave you, and please try again."⟩

/-- The message list of the corrective retry (src/example.py:395-404):
the selection messages extended with the offending assistant reply and
the correction. -/
def retryMessages (env : Env) (query_text_short : String)
    (cands : List Candidate) (missing : List String) : List Message :=
  selectionMessages env query_text_short cands
    ++ [⟨"assistant", firstSelectionReply env query_text_short cands⟩,
        correctionMessage missing]

/-- The retry reply (src/example.py:407-411): third completion call,
issued with the hardcoded `DEFAULT_MODEL`, temperature 0. -/
def retryReply (env : Env) (query_text_short : String)
    (cands : List Candidate) (missing : List String) : String :=
  env.complete DEFAULT_MODEL (retryMessages env query_text_short cands missing)

/-- The call record of the context-confirmation call
(src/example.py:317-322). -/
def contextCall (env : Env) : CompletionCall :=
  ⟨env.OPENROUTER_MODEL, 0, some 1000, "context"⟩

/-- The call record of the first selection call (src/example.py:368-372). -/
def selectionCall (env : Env) : CompletionCall :=
  ⟨env.OPENROUTER_MODEL, 0, none, "selection"⟩

/-- The call record of the corrective retry call (src/example.py:407-410). -/
def retryCall : CompletionCall :=
  ⟨DEFAULT_MODEL, 0, none, "retry"⟩

/-- Embeds the selection phase of `find_clauses`
(src/example.py:306-419): context call, selection call, parse; on parse
failure return no rows; on a validation miss issue exactly one retry
with `DEFAULT_MODEL` and accept its parse result without re-validation;
returns the accepted rows (if any) and the completion calls issued. -/
def selectionPhase (env : Env) (query_text_short : String)
    (cands : List Candidate) : Option (List SelRow) × List CompletionCall :=
  match env.parseResponse (firstSelectionReply env query_text_short cands) with
  | none => (none, [contextCall env, selectionCall env])
  | some rows =>
    let missing := missingOf env rows
    if missing.isEmpty then
      (some rows, [contextCall env, selectionCall env])
    else
      match env.parseResponse (retryReply env query_text_short cands missing) with
      | none => (none, [contextCall env, selectionCall env, retryCall])
      | some rows2 => (some rows2, [contextCall env, selectionCall env, retryCall])

/-- One entry of the `matches` array built at src/example.py:425-434. -/
structure MatchEntry where
  name : String
  child_name : String
  clause_url : String
  reason : String
  emissions_sources : List String
deriving DecidableEq

/-- Embeds the match-building loop of src/example.py:425-434: the output
name is the row's clause name with every `".txt"` occurrence removed
(`.replace(".txt", "")`), enriched with child name, URL, reasoning and
emission sources. -/
def buildMatches (env : Env) (rows : List SelRow) : List MatchEntry :=
  rows.map (fun r =>
    let clause_name := replaceStr r.clauseName ".txt" ""
    ⟨clause_name, env.nameToChild clause_name, env.nameToUrl clause_name,
      r.reasoning, env.emissionsFor r.clauseName⟩)

/-- The body a `/find_clauses/` request answers with: either a 4xx error
payload (`JSONResponse(content={"error": ...}, status_code=...)`) or the
`{"matches": [...]}` object. -/
inductive FindResult where
  | errorResponse (content : String) (statusCode : Nat)
  | matches (ms : List MatchEntry)
deriving DecidableEq

/-- The observable outcome of one `/find_clauses/` request: the response
body, the embedding cache afterwards, the completion calls issued, and
(as an execution trace) the query text and query embedding the request
worked with, when it got that far. -/
structure RunOutcome where
  result : FindResult
  cache : Cache
  calls : List CompletionCall
  queryTextUsed : Option String
  embeddingUsed : Option Embedding

/-- Embeds the cached-embedding lookup of src/example.py:273-282:
take the entry for the content hash from the cache (deleting it) and
reuse its embedding; on a miss, recompute the embedding from the
converted query text. -/
def embeddingLookup (env : Env) (cache : Cache) (content : Content)
    (query_text : String) : Embedding × Cache :=
  match cacheTake cache (env.md5 content) with
  | (some entry, c2) => (entry.embedding, c2)
  | (none, c2) => (env.encodeText query_text, c2)

/-- Embeds the `/find_clauses/` endpoint (src/example.py:248-436):
extension gate, file-to-text conversion, cached-embedding lookup,
hybrid retrieval, the bounded selection protocol, and match building. -/
def find_clauses (env : Env) (cache : Cache) (filename : String)
    (content : Content) : RunOutcome :=
  if extensionAllowed filename then
    match env.convertFileToText content filename with
    | Except.error e =>
        ⟨FindResult.errorResponse ("Error converting file to text: " ++ e) 400,
          cache, [], none, none⟩
    | Except.ok query_text =>
        let query_embedding := (embeddingLookup env cache content query_text).1
        let cache2 := (embeddingLookup env cache content query_text).2
        let cands := combined_df env query_text query_embedding
        let query_text_short := takeStr query_text 1000
        match selectionPhase env query_text_short cands with
        | (none, calls) =>
            ⟨FindResult.matches [], cache2, calls, some query_text, some query_embedding⟩
        | (some rows, calls) =>
            ⟨FindResult.matches (buildMatches env rows), cache2, calls,
              some query_text, some query_embedding⟩
  else
    ⟨FindResult.errorResponse extensionErrorMessage 400, cache, [], none, none⟩

/-- The candidate set a `/find_clauses/` request with converted query
text `qt` hands to the selection step (the `combined_df` computed inside
`find_clauses`, with the embedding resolved through the cache). -/
def candsOf (env : Env) (cache : Cache) (content : Content) (qt : String) :
    List Candidate :=
  combined_df env qt (embeddingLookup env cache content qt).1

/-- The first selection reply of the request (the `response_text` of
src/example.py:374), expressed through the request inputs. -/
def firstReplyOf (env : Env) (cache : Cache) (content : Content) (qt : String) :
    String :=
  firstSelectionReply env (takeStr qt 1000) (candsOf env cache content qt)

/-- The corrective-retry reply of the request (the `response_text` of
src/example.py:411), given that the first reply parsed to `rows`. -/
def retryReplyOf (env : Env) (cache : Cache) (content : Content) (qt : String)
    (rows : List SelRow) : String :=
  retryReply env (takeStr qt 1000) (candsOf env cache content qt) (missingOf env rows)

/-- The body a `/process/` request answers with: a 4xx error payload or
the classification response of src/example.py:230-239 (the
classification itself comes from the opaque classifier pipeline, a
non-goal of the spec). -/
inductive ProcessResult where
  | errorResponse (content : String) (statusCode : Nat)
  | ok (classification : String)
deriving DecidableEq

/-- Embeds the parts of the `/process/` endpoint (src/example.py:107-246)
the claims depend on: the extension gate, the conversion step, and the
embedding-cache insertion of src/example.py:181-186
(`embedding_cache[file_hash] = {'embedding': ..., 'text': ...}`). The
downstream sentence classification and rendering are opaque
collaborators (spec §1 non-goals) summarised by `classify`. -/
def process_contract (env : Env) (classify : String → String) (cache : Cache)
    (filename : String) (content : Content) : ProcessResult × Cache :=
  if extensionAllowed filename then
    match env.convertFileToText content filename with
    | Except.error e =>
        (ProcessResult.errorResponse ("Error converting file to text: " ++ e) 400, cache)
    | Except.ok full_contract_text =>
        let cache2 := cachePut cache (env.md5 content)
          ⟨env.encodeText full_contract_text, full_contract_text⟩
        (ProcessResult.ok (classify full_contract_text), cache2)
  else
    (ProcessResult.errorResponse extensionErrorMessage 400, cache)

/-- A concrete environment for evaluating the pipeline on closed inputs:
retrieval comes up empty (no cluster assignment, zero bow similarity),
the completion service replies with the length of the message list (so
the three protocol calls reply "2", "4", "6"), and parsing returns `p1`
for the first selection reply and `p2` for the retry reply. -/
def testEnv (p1 p2 : Option (List SelRow)) : Env :=
  { convertFileToText := fun _ _ => Except.ok "contract text"
    md5 := fun _ => "h0"
    encodeText := fun _ => [0]
    umapProject := id
    assignCluster := fun _ => none
    clusterTag := fun _ => none
    bowSim := fun _ _ => 0
    embSim := fun _ _ => 0
    names := ["ab.txt"]
    docs := ["doc ab"]
    OPENROUTER_MODEL := "m-config"
    complete := fun _ msgs => toString msgs.length
    parseResponse := fun s => if s = "4" then p1 else if s = "6" then p2 else none
    nameToChild := fun _ => ""
    nameToUrl := fun _ => ""
    emissionsFor := fun _ => [] }

/-- A concrete environment whose single corpus entry is matched by both
retrieval strategies: the clustering model assigns label 1, the corpus
entry carries cluster tag 1, and its bag-of-words similarity is 1. -/
def dupEnv : Env :=
  { testEnv none none with
    assignCluster := fun _ => some 1
    clusterTag := fun _ => some 1
    bowSim := fun _ _ => 1 }

/-! ## Helper lemmas -/

/-- Whatever the selection phase does, its call list is the two-call or
the three-call sequence. -/
lemma selectionPhase_snd (env : Env) (qts : String) (cands : List Candidate) :
    (selectionPhase env qts cands).2 = [contextCall env, selectionCall env]
    ∨ (selectionPhase env qts cands).2 = [contextCall env, selectionCall env, retryCall] := by
  unfold selectionPhase
  cases h : env.parseResponse (firstSelectionReply env qts cands) with
  | none => simp
  | some rows =>
    by_cases hm : (missingOf env rows).isEmpty
    · simp [hm]
    · cases h2 : env.parseResponse (retryReply env qts cands (missingOf env rows)) <;>
        simp [hm, h2]

/-- A `/find_clauses/` request issues no calls (rejected upload or failed
conversion), the two-call sequence, or the three-call sequence. -/
lemma find_clauses_calls (env : Env) (cache : Cache) (filename : String)
    (content : Content) :
    (find_clauses env cache filename content).calls = []
    ∨ (find_clauses env cache filename content).calls
        = [contextCall env, selectionCall env]
    ∨ (find_clauses env cache filename content).calls
        = [contextCall env, selectionCall env, retryCall] := by
  unfold find_clauses
  cases hx : extensionAllowed filename
  · simp
  · cases hc : env.convertFileToText content filename with
    | error e => simp
    | ok qt =>
      simp only []
      rcases selectionPhase_snd env (takeStr qt 1000)
          (combined_df env qt (embeddingLookup env cache content qt).1) with h | h <;>
        rcases hs : selectionPhase env (takeStr qt 1000)
          (combined_df env qt (embeddingLookup env cache content qt).1) with ⟨_ | rows, calls⟩ <;>
        simp_all

/-- Selection-phase equation: first parse fails. -/
lemma selectionPhase_parse_fail (env : Env) (qts : String) (cands : List Candidate)
    (hp : env.parseResponse (firstSelectionReply env qts cands) = none) :
    selectionPhase env qts cands = (none, [contextCall env, selectionCall env]) := by
  unfold selectionPhase; rw [hp]

/-- Selection-phase equation: first parse succeeds and validation finds
a close match for every proposed name. -/
lemma selectionPhase_valid (env : Env) (qts : String) (cands : List Candidate)
    (rows : List SelRow)
    (hp : env.parseResponse (firstSelectionReply env qts cands) = some rows)
    (hm : missingOf env rows = []) :
    selectionPhase env qts cands = (some rows, [contextCall env, selectionCall env]) := by
  unfold selectionPhase; rw [hp]; simp [hm]

/-- Selection-phase equation: validation fails and the retry reply does
not parse. -/
lemma selectionPhase_retry_fail (env : Env) (qts : String) (cands : List Candidate)
    (rows : List SelRow)
    (hp : env.parseResponse (firstSelectionReply env qts cands) = some rows)
    (hm : missingOf env rows ≠ [])
    (hr : env.parseResponse (retryReply env qts cands (missingOf env rows)) = none) :
    selectionPhase env qts cands
      = (none, [contextCall env, selectionCall env, retryCall]) := by
  unfold selectionPhase; rw [hp]; simp [hm, hr]

/-- Selection-phase equation: validation fails and the retry reply
parses; its rows are accepted as they are. -/
lemma selectionPhase_retry_ok (env : Env) (qts : String) (cands : List Candidate)
    (rows rows2 : List SelRow)
    (hp : env.parseResponse (firstSelectionReply env qts cands) = some rows)
    (hm : missingOf env rows ≠ [])
    (hr : env.parseResponse (retryReply env qts cands (missingOf env rows)) = some rows2) :
    selectionPhase env qts cands
      = (some rows2, [contextCall env, selectionCall env, retryCall]) := by
  unfold selectionPhase; rw [hp]; simp [hm, hr]

/-- Unfolding of a `/find_clauses/` request that passes the extension
gate and whose conversion succeeds. -/
lemma find_clauses_eq (env : Env) (cache : Cache) (filename : String)
    (content : Content) (qt : String)
    (hx : extensionAllowed filename = true)
    (hconv : env.convertFileToText content filename = Except.ok qt) :
    find_clauses env cache filename content =
      ⟨(match (selectionPhase env (takeStr qt 1000) (candsOf env cache content qt)).1 with
         | none => FindResult.matches []
         | some rows => FindResult.matches (buildMatches env rows)),
       (embeddingLookup env cache content qt).2,
       (selectionPhase env (takeStr qt 1000) (candsOf env cache content qt)).2,
       some qt, some (embeddingLookup env cache content qt).1⟩ := by
  unfold find_clauses
  rw [hx, hconv]
  rcases hs : selectionPhase env (takeStr qt 1000) (candsOf env cache content qt)
      with ⟨_ | rows, calls⟩ <;>
    simp_all [candsOf]

/-- The validation loop flags a name exactly when the fuzzy lookup of
`name + ".txt"` against the corpus names comes back empty. -/
lemma missingOf_ne_nil_iff (env : Env) (rows : List SelRow) :
    missingOf env rows ≠ []
    ↔ ∃ r ∈ rows, get_close_matches (r.clauseName ++ ".txt") env.names = [] := by
  simp [missingOf, List.map_eq_nil_iff, List.filter_eq_nil_iff, List.isEmpty_iff]

/-- Every pair the bow stage keeps is a corpus pair whose bag-of-words
similarity exceeds the threshold. -/
lemma mem_find_top_similar_bow (env : Env) (qt : String) (p : String × String)
    (hp : p ∈ find_top_similar_bow env qt) :
    p ∈ env.names.zip env.docs ∧ bowThreshold < env.bowSim qt p.2 := by
  unfold find_top_similar_bow at hp
  have h1 := List.mem_of_mem_take hp
  rw [List.mem_insertionSort] at h1
  have h2 := List.mem_filter.mp h1
  exact ⟨h2.1, by simpa using h2.2⟩

/-! ## Claims -/

/-- Claim C1, counterexample. The claim says every name in a non-empty
`matches` output, after re-appending ".txt", equals some Corpus Index
key exactly. Concrete run refuting it: the corpus names are
["ab.txt"]; the first selection reply parses to the hallucinated name
"zz", validation flags it, and the retry reply parses to another
hallucinated name "qq", which is accepted with no validation; the final
output names "qq", and "qq.txt" is no corpus key. -/
theorem C1_exact_names_counterexample :
    (find_clauses (testEnv (some [⟨"zz", "r1"⟩]) (some [⟨"qq", "r2"⟩]))
        emptyCache "a.txt" []).result
      = FindResult.matches [⟨"qq", "", "", "r2", []⟩]
    ∧ ("qq" ++ ".txt") ∉ (testEnv (some [⟨"zz", "r1"⟩]) (some [⟨"qq", "r2"⟩])).names :=
  ⟨by decide, by decide⟩

/-- Claim C1, amended. When the first selection reply parses and its
validation finds a close match for every proposed name (so no retry is
issued), the request answers with exactly those rows, and every accepted
clause name, with ".txt" re-appended, has a fuzzy close match (cutoff
0.8) among the Corpus Index keys - close, not necessarily exact; rows
accepted through the retry path are not validated at all. -/
theorem C1_amended_fuzzy_validation (env : Env) (cache : Cache) (filename : String)
    (content : Content) (qt : String) (rows : List SelRow)
    (hx : extensionAllowed filename = true)
    (hconv : env.convertFileToText content filename = Except.ok qt)
    (hp : env.parseResponse (firstReplyOf env cache content qt) = some rows)
    (hm : missingOf env rows = []) :
    (find_clauses env cache filename content).result
      = FindResult.matches (buildMatches env rows)
    ∧ ∀ r ∈ rows, get_close_matches (r.clauseName ++ ".txt") env.names ≠ [] := by
  constructor
  · rw [find_clauses_eq env cache filename content qt hx hconv,
      selectionPhase_valid env _ _ rows hp hm]
  · intro r hr
    simp only [missingOf, List.map_eq_nil_iff, List.filter_eq_nil_iff] at hm
    have := hm r hr
    simpa [List.isEmpty_iff] using this

/-- Claim C1, amended, witness: a run whose single proposed name "ab"
passes validation against the corpus key "ab.txt". -/
theorem C1_amended_fuzzy_validation_witness :
    (find_clauses (testEnv (some [⟨"ab", "r1"⟩]) none) emptyCache "a.txt" []).result
      = FindResult.matches (buildMatches (testEnv (some [⟨"ab", "r1"⟩]) none) [⟨"ab", "r1"⟩])
    ∧ ∀ r ∈ [(⟨"ab", "r1"⟩ : SelRow)],
        get_close_matches (r.clauseName ++ ".txt")
          (testEnv (some [⟨"ab", "r1"⟩]) none).names ≠ [] :=
  C1_amended_fuzzy_validation (testEnv (some [⟨"ab", "r1"⟩]) none) emptyCache "a.txt" []
    "contract text" [⟨"ab", "r1"⟩] (by decide) rfl (by decide) (by decide)

/-- Claim C2: every `/find_clauses/` request issues at most three
completion-service calls, and the calls it does issue are, in order, a
prefix of context confirmation, selection, corrective retry - a fourth
call occurs on no execution path. -/
theorem C2_at_most_three_completion_calls (env : Env) (cache : Cache)
    (filename : String) (content : Content) :
    (find_clauses env cache filename content).calls.length ≤ 3
    ∧ (find_clauses env cache filename content).calls.map (fun c => c.purpose)
        = ["context", "selection", "retry"].take
            (find_clauses env cache filename content).calls.length := by
  rcases find_clauses_calls env cache filename content with h | h | h <;>
    simp [h, contextCall, selectionCall, retryCall]

/-- Claim C3: when the first selection reply parses, validation flags a
name exactly when the fuzzy lookup of `name + ".txt"` against the corpus
names (cutoff 0.8) finds nothing; exactly one corrective retry call is
issued if and only if some name was flagged; with no flagged name the
rows are accepted after two calls; and a parsed retry reply is accepted
unconditionally - no second validation pass. -/
theorem C3_validation_and_single_retry (env : Env) (cache : Cache)
    (filename : String) (content : Content) (qt : String) (rows : List SelRow)
    (hx : extensionAllowed filename = true)
    (hconv : env.convertFileToText content filename = Except.ok qt)
    (hp : env.parseResponse (firstReplyOf env cache content qt) = some rows) :
    (missingOf env rows ≠ []
      ↔ ∃ r ∈ rows, get_close_matches (r.clauseName ++ ".txt") env.names = [])
    ∧ ((find_clauses env cache filename content).calls.length = 3
        ↔ missingOf env rows ≠ [])
    ∧ (missingOf env rows = [] →
        (find_clauses env cache filename content).result
          = FindResult.matches (buildMatches env rows)
        ∧ (find_clauses env cache filename content).calls.length = 2)
    ∧ (∀ rows2 : List SelRow, missingOf env rows ≠ [] →
        env.parseResponse (retryReplyOf env cache content qt rows) = some rows2 →
        (find_clauses env cache filename content).result
          = FindResult.matches (buildMatches env rows2)
        ∧ (find_clauses env cache filename content).calls.length = 3) := by
  rw [find_clauses_eq env cache filename content qt hx hconv]
  refine ⟨missingOf_ne_nil_iff env rows, ?_, ?_, ?_⟩
  · constructor
    · intro hlen
      by_contra hm
      rw [selectionPhase_valid env _ _ rows hp hm] at hlen
      simp at hlen
    · intro hm
      cases hr : env.parseResponse (retryReplyOf env cache content qt rows) with
      | none => rw [selectionPhase_retry_fail env _ _ rows hp hm hr]; simp
      | some rows2 => rw [selectionPhase_retry_ok env _ _ rows rows2 hp hm hr]; simp
  · intro hm
    rw [selectionPhase_valid env _ _ rows hp hm]
    simp
  · intro rows2 hm hr
    rw [selectionPhase_retry_ok env _ _ rows rows2 hp hm hr]
    simp

/-- Claim C3, witness: a run whose proposed name passes validation
(two calls, accepted as is) and a run whose hallucinated name triggers
exactly one retry whose parsed rows are accepted (three calls). -/
theorem C3_validation_and_single_retry_witness :
    (find_clauses (testEnv (some [⟨"ab", "r1"⟩]) none) emptyCache "a.txt" []).result
      = FindResult.matches (buildMatches (testEnv (some [⟨"ab", "r1"⟩]) none) [⟨"ab", "r1"⟩])
    ∧ (find_clauses (testEnv (some [⟨"ab", "r1"⟩]) none) emptyCache "a.txt" []).calls.length = 2
    ∧ (find_clauses (testEnv (some [⟨"zz", "r1"⟩]) (some [⟨"qq", "r2"⟩]))
        emptyCache "a.txt" []).result
      = FindResult.matches
          (buildMatches (testEnv (some [⟨"zz", "r1"⟩]) (some [⟨"qq", "r2"⟩])) [⟨"qq", "r2"⟩])
    ∧ (find_clauses (testEnv (some [⟨"zz", "r1"⟩]) (some [⟨"qq", "r2"⟩]))
        emptyCache "a.txt" []).calls.length = 3 := by
  refine ⟨?_, ?_, ?_, ?_⟩
  · exact ((C3_validation_and_single_retry (testEnv (some [⟨"ab", "r1"⟩]) none) emptyCache
      "a.txt" [] "contract text" [⟨"ab", "r1"⟩] (by decide) rfl (by decide)).2.2.1
      (by decide)).1
  · exact ((C3_validation_and_single_retry (testEnv (some [⟨"ab", "r1"⟩]) none) emptyCache
      "a.txt" [] "contract text" [⟨"ab", "r1"⟩] (by decide) rfl (by decide)).2.2.1
      (by decide)).2
  · exact ((C3_validation_and_single_retry (testEnv (some [⟨"zz", "r1"⟩]) (some [⟨"qq", "r2"⟩]))
      emptyCache "a.txt" [] "contract text" [⟨"zz", "r1"⟩] (by decide) rfl (by decide)).2.2.2
      [⟨"qq", "r2"⟩] (by decide) (by decide)).1
  · exact ((C3_validation_and_single_retry (testEnv (some [⟨"zz", "r1"⟩]) (some [⟨"qq", "r2"⟩]))
      emptyCache "a.txt" [] "contract text" [⟨"zz", "r1"⟩] (by decide) rfl (by decide)).2.2.2
      [⟨"qq", "r2"⟩] (by decide) (by decide)).2

/-- Claim C4: if the first selection reply fails to parse the request
answers `matches = []` immediately after two calls (no retry); if the
retry reply fails to parse the request likewise answers `matches = []`;
in both cases the response is the matches payload, not an error
status. -/
theorem C4_parse_failure_empty_matches (env : Env) (cache : Cache)
    (filename : String) (content : Content) (qt : String)
    (hx : extensionAllowed filename = true)
    (hconv : env.convertFileToText content filename = Except.ok qt) :
    (env.parseResponse (firstReplyOf env cache content qt) = none →
      (find_clauses env cache filename content).result = FindResult.matches []
      ∧ (find_clauses env cache filename content).calls.length = 2)
    ∧ (∀ rows : List SelRow,
        env.parseResponse (firstReplyOf env cache content qt) = some rows →
        missingOf env rows ≠ [] →
        env.parseResponse (retryReplyOf env cache content qt rows) = none →
        (find_clauses env cache filename content).result = FindResult.matches []
        ∧ (find_clauses env cache filename content).calls.length = 3) := by
  rw [find_clauses_eq env cache filename content qt hx hconv]
  constructor
  · intro hp
    rw [selectionPhase_parse_fail env _ _ hp]
    simp
  · intro rows hp hm hr
    rw [selectionPhase_retry_fail env _ _ rows hp hm hr]
    simp

/-- Claim C4, witness: a run whose first reply does not parse (two
calls, empty matches) and a run whose retry reply does not parse (three
calls, empty matches). -/
theorem C4_parse_failure_empty_matches_witness :
    (find_clauses (testEnv none none) emptyCache "a.txt" []).result
      = FindResult.matches []
    ∧ (find_clauses (testEnv none none) emptyCache "a.txt" []).calls.length = 2
    ∧ (find_clauses (testEnv (some [⟨"zz", "r1"⟩]) none) emptyCache "a.txt" []).result
      = FindResult.matches []
    ∧ (find_clauses (testEnv (some [⟨"zz", "r1"⟩]) none) emptyCache "a.txt" []).calls.length
      = 3 := by
  refine ⟨?_, ?_, ?_, ?_⟩
  · exact ((C4_parse_failure_empty_matches (testEnv none none) emptyCache "a.txt" []
      "contract text" (by decide) rfl).1 (by decide)).1
  · exact ((C4_parse_failure_empty_matches (testEnv none none) emptyCache "a.txt" []
      "contract text" (by decide) rfl).1 (by decide)).2
  · exact ((C4_parse_failure_empty_matches (testEnv (some [⟨"zz", "r1"⟩]) none) emptyCache
      "a.txt" [] "contract text" (by decide) rfl).2 [⟨"zz", "r1"⟩]
      (by decide) (by decide) (by decide)).1
  · exact ((C4_parse_failure_empty_matches (testEnv (some [⟨"zz", "r1"⟩]) none) emptyCache
      "a.txt" [] "contract text" (by decide) rfl).2 [⟨"zz", "r1"⟩]
      (by decide) (by decide) (by decide)).2

/-- Claim C5: for every retrieval query, the candidate set handed to the
selection step has at most (assigned cluster size) + 5 entries, and
every bag-of-words candidate was admitted with similarity strictly above
the 0.1 threshold - never below it. -/
theorem C5_candidate_bounds (env : Env) (qt : String) (qe : Embedding) :
    (combined_df env qt qe).length ≤ clusterSize env qe + 5
    ∧ ∀ c ∈ df_bow env qt qe, bowThreshold < env.bowSim qt c.text := by
  constructor
  · have hb : (df_bow env qt qe).length ≤ 5 := by
      simp [df_bow]
    have hc : (df_cluster env qe).length = clusterSize env qe := by
      simp [df_cluster, clusterSize]
    calc (combined_df env qt qe).length
        = (df_cluster env qe).length + (df_bow env qt qe).length := by
          simp [combined_df]
      _ ≤ clusterSize env qe + 5 := by rw [hc]; exact Nat.add_le_add_left hb _
  · intro c hc
    simp only [df_bow] at hc
    have hc2 := List.mem_of_mem_take hc
    obtain ⟨p, hpmem, hpc⟩ := List.mem_map.mp hc2
    have hpool : p ∈ find_top_similar_bow env qt := by
      unfold get_embedding_matches_subset at hpmem
      have := List.mem_of_mem_take hpmem
      rwa [List.mem_insertionSort] at this
    have := (mem_find_top_similar_bow env qt p hpool).2
    rw [← hpc]
    simpa using this

/-- Claim C6: the embedding cache behaves as put/take. Once `/process/`
has stored the entry for a document (overwriting whatever was under that
fingerprint), the `/find_clauses/` lookup for the same fingerprint
returns the stored embedding unchanged - bit-identical, not recomputed -
and removes the entry, so a second lookup misses and falls back to
recomputing the embedding from the query text. -/
theorem C6_cache_put_take (env : Env) (classify : String → String) (cache : Cache)
    (filename : String) (content : Content) (text qt qt2 : String) (e : CacheEntry)
    (hx : extensionAllowed filename = true)
    (hconv : env.convertFileToText content filename = Except.ok text) :
    (process_contract env classify cache filename content).2
      = cachePut cache (env.md5 content) ⟨env.encodeText text, text⟩
    ∧ cachePut cache (env.md5 content) e (env.md5 content) = some e
    ∧ (cacheTake (cachePut cache (env.md5 content) e) (env.md5 content)).1 = some e
    ∧ (cacheTake (cachePut cache (env.md5 content) e) (env.md5 content)).2
        (env.md5 content) = none
    ∧ (embeddingLookup env (cachePut cache (env.md5 content) e) content qt).1
        = e.embedding
    ∧ (embeddingLookup env
        ((embeddingLookup env (cachePut cache (env.md5 content) e) content qt).2)
        content qt2).1 = env.encodeText qt2 := by
  refine ⟨?_, ?_, ?_, ?_, ?_, ?_⟩
  · unfold process_contract
    rw [hx, hconv]
    simp
  · simp [cachePut]
  · simp [cacheTake, cachePut]
  · simp [cacheTake, cachePut]
  · simp [embeddingLookup, cacheTake, cachePut]
  · simp [embeddingLookup, cacheTake, cachePut]

/-- Claim C6, witness: the put/take round trip at a concrete document
and cache entry. -/
theorem C6_cache_put_take_witness :
    (process_contract (testEnv none none) (fun s => s) emptyCache "a.txt" []).2
      = cachePut emptyCache ((testEnv none none).md5 [])
          ⟨(testEnv none none).encodeText "contract text", "contract text"⟩
    ∧ cachePut emptyCache ((testEnv none none).md5 []) ⟨[7], "other"⟩
        ((testEnv none none).md5 []) = some ⟨[7], "other"⟩
    ∧ (cacheTake (cachePut emptyCache ((testEnv none none).md5 []) ⟨[7], "other"⟩)
        ((testEnv none none).md5 [])).1 = some ⟨[7], "other"⟩
    ∧ (cacheTake (cachePut emptyCache ((testEnv none none).md5 []) ⟨[7], "other"⟩)
        ((testEnv none none).md5 [])).2 ((testEnv none none).md5 []) = none
    ∧ (embeddingLookup (testEnv none none)
        (cachePut emptyCache ((testEnv none none).md5 []) ⟨[7], "other"⟩) [] "q1").1
        = (⟨[7], "other"⟩ : CacheEntry).embedding
    ∧ (embeddingLookup (testEnv none none)
        ((embeddingLookup (testEnv none none)
          (cachePut emptyCache ((testEnv none none).md5 []) ⟨[7], "other"⟩) [] "q1").2)
        [] "q2").1 = (testEnv none none).encodeText "q2" :=
  C6_cache_put_take (testEnv none none) (fun s => s) emptyCache "a.txt" []
    "contract text" "q1" "q2" ⟨[7], "other"⟩ (by decide) rfl

/-- Claim C7: the candidate set is the cluster-matched rows followed by
the bag-of-words rows, concatenated with no de-duplication, so a clause
matched by both strategies appears at least twice, once with each
provenance tag. -/
theorem C7_concat_no_dedup (env : Env) (qt : String) (qe : Embedding) (cn : String)
    (h1 : cn ∈ (df_cluster env qe).map (fun c => c.source_name))
    (h2 : cn ∈ (df_bow env qt qe).map (fun c => c.source_name)) :
    combined_df env qt qe = df_cluster env qe ++ df_bow env qt qe
    ∧ 2 ≤ (combined_df env qt qe).countP (fun c => c.source_name == cn)
    ∧ (∃ c ∈ combined_df env qt qe, c.source_name = cn ∧ c.matched_by = "cluster")
    ∧ (∃ c ∈ combined_df env qt qe, c.source_name = cn ∧ c.matched_by = "bow") := by
  obtain ⟨c1, hc1mem, hc1⟩ := List.mem_map.mp h1
  obtain ⟨c2, hc2mem, hc2⟩ := List.mem_map.mp h2
  have htag1 : c1.matched_by = "cluster" := by
    simp only [df_cluster] at hc1mem
    obtain ⟨p, _, hp⟩ := List.mem_map.mp hc1mem
    rw [← hp]
  have htag2 : c2.matched_by = "bow" := by
    simp only [df_bow] at hc2mem
    have := List.mem_of_mem_take hc2mem
    obtain ⟨p, _, hp⟩ := List.mem_map.mp this
    rw [← hp]
  refine ⟨rfl, ?_, ?_, ?_⟩
  · have k1 : 0 < (df_cluster env qe).countP (fun c => c.source_name == cn) := by
      rw [List.countP_pos_iff]
      exact ⟨c1, hc1mem, by simp [hc1]⟩
    have k2 : 0 < (df_bow env qt qe).countP (fun c => c.source_name == cn) := by
      rw [List.countP_pos_iff]
      exact ⟨c2, hc2mem, by simp [hc2]⟩
    have : (combined_df env qt qe).countP (fun c => c.source_name == cn)
        = (df_cluster env qe).countP (fun c => c.source_name == cn)
          + (df_bow env qt qe).countP (fun c => c.source_name == cn) := by
      simp [combined_df, List.countP_append]
    omega
  · exact ⟨c1, by simp [combined_df, hc1mem], hc1, htag1⟩
  · exact ⟨c2, by simp [combined_df, hc2mem], hc2, htag2⟩

/-- Claim C7, witness: a corpus entry matched by both strategies appears
twice in the combined candidate set, once per provenance tag. -/
theorem C7_concat_no_dedup_witness :
    combined_df dupEnv "q" [0] = df_cluster dupEnv [0] ++ df_bow dupEnv "q" [0]
    ∧ 2 ≤ (combined_df dupEnv "q" [0]).countP (fun c => c.source_name == "ab.txt")
    ∧ (∃ c ∈ combined_df dupEnv "q" [0],
        c.source_name = "ab.txt" ∧ c.matched_by = "cluster")
    ∧ (∃ c ∈ combined_df dupEnv "q" [0],
        c.source_name = "ab.txt" ∧ c.matched_by = "bow") :=
  C7_concat_no_dedup dupEnv "q" [0] "ab.txt" (by decide) (by decide)

/-- Claim C8: the context-confirmation and first selection calls use the
configured model, while the corrective retry call uses the hardcoded
`DEFAULT_MODEL`; so whenever a non-default model is configured, the
retry runs on a different model than the call it corrects. -/
theorem C8_retry_uses_default_model (env : Env) (cache : Cache)
    (filename : String) (content : Content)
    (h : env.OPENROUTER_MODEL ≠ DEFAULT_MODEL) :
    (∀ c ∈ (find_clauses env cache filename content).calls.take 2,
        c.model = env.OPENROUTER_MODEL)
    ∧ (∀ c ∈ (find_clauses env cache filename content).calls.drop 2,
        c.model = DEFAULT_MODEL ∧ c.model ≠ env.OPENROUTER_MODEL) := by
  rcases find_clauses_calls env cache filename content with hc | hc | hc <;>
    (rw [hc]; simp [contextCall, selectionCall, retryCall];
      try exact fun heq => h heq.symm)

/-- Claim C8, witness: a run with a non-default configured model that
reaches the retry; its first two calls use the configured model and its
third uses `DEFAULT_MODEL`. -/
theorem C8_retry_uses_default_model_witness :
    ((testEnv (some [⟨"zz", "r1"⟩]) (some [⟨"qq", "r2"⟩])).OPENROUTER_MODEL ≠ DEFAULT_MODEL)
    ∧ ((find_clauses (testEnv (some [⟨"zz", "r1"⟩]) (some [⟨"qq", "r2"⟩]))
        emptyCache "a.txt" []).calls.length = 3)
    ∧ ((∀ c ∈ (find_clauses (testEnv (some [⟨"zz", "r1"⟩]) (some [⟨"qq", "r2"⟩]))
          emptyCache "a.txt" []).calls.take 2,
        c.model = (testEnv (some [⟨"zz", "r1"⟩]) (some [⟨"qq", "r2"⟩])).OPENROUTER_MODEL)
      ∧ (∀ c ∈ (find_clauses (testEnv (some [⟨"zz", "r1"⟩]) (some [⟨"qq", "r2"⟩]))
          emptyCache "a.txt" []).calls.drop 2,
        c.model = DEFAULT_MODEL
        ∧ c.model ≠ (testEnv (some [⟨"zz", "r1"⟩]) (some [⟨"qq", "r2"⟩])).OPENROUTER_MODEL)) :=
  ⟨by decide, by decide,
    C8_retry_uses_default_model _ _ _ _ (by decide)⟩

/-- Claim C9: on a cache hit the request reuses only the cached
embedding - two runs whose cached entries differ only in the stored text
field are indistinguishable in result and calls - and the query text it
works with is always the output of the conversion step, on hit and miss
alike (on a miss the embedding is recomputed from that converted
text). -/
theorem C9_hit_uses_only_embedding (env : Env) (cache : Cache) (filename : String)
    (content : Content) (v : Embedding) (t t2 qt : String)
    (hx : extensionAllowed filename = true)
    (hconv : env.convertFileToText content filename = Except.ok qt) :
    ((find_clauses env (cachePut cache (env.md5 content) ⟨v, t⟩) filename content).result
       = (find_clauses env (cachePut cache (env.md5 content) ⟨v, t2⟩) filename content).result
     ∧ (find_clauses env (cachePut cache (env.md5 content) ⟨v, t⟩) filename content).calls
       = (find_clauses env (cachePut cache (env.md5 content) ⟨v, t2⟩) filename content).calls)
    ∧ (find_clauses env (cachePut cache (env.md5 content) ⟨v, t⟩) filename
        content).queryTextUsed = some qt
    ∧ (find_clauses env (cachePut cache (env.md5 content) ⟨v, t⟩) filename
        content).embeddingUsed = some v
    ∧ (cache (env.md5 content) = none →
        (find_clauses env cache filename content).queryTextUsed = some qt
        ∧ (find_clauses env cache filename content).embeddingUsed
            = some (env.encodeText qt)) := by
  have h1 : (embeddingLookup env (cachePut cache (env.md5 content) ⟨v, t⟩) content qt).1
      = v := by simp [embeddingLookup, cacheTake, cachePut]
  have h2 : (embeddingLookup env (cachePut cache (env.md5 content) ⟨v, t2⟩) content qt).1
      = v := by simp [embeddingLookup, cacheTake, cachePut]
  have hc : candsOf env (cachePut cache (env.md5 content) ⟨v, t⟩) content qt
      = candsOf env (cachePut cache (env.md5 content) ⟨v, t2⟩) content qt := by
    simp [candsOf, h1, h2]
  refine ⟨⟨?_, ?_⟩, ?_, ?_, ?_⟩
  · rw [find_clauses_eq env _ filename content qt hx hconv,
      find_clauses_eq env _ filename content qt hx hconv]
    rw [hc]
  · rw [find_clauses_eq env _ filename content qt hx hconv,
      find_clauses_eq env _ filename content qt hx hconv]
    rw [hc]
  · rw [find_clauses_eq env _ filename content qt hx hconv]
  · rw [find_clauses_eq env _ filename content qt hx hconv]
    simpa using congrArg some h1
  · intro hmiss
    rw [find_clauses_eq env cache filename content qt hx hconv]
    refine ⟨rfl, ?_⟩
    simp [embeddingLookup, cacheTake, hmiss]

/-- Claim C9, witness: two cached entries sharing the embedding `[7]`
but carrying different stored texts yield identical outcomes, the query
text comes from conversion, and the empty cache misses and recomputes. -/
theorem C9_hit_uses_only_embedding_witness :
    ((find_clauses (testEnv none none)
        (cachePut emptyCache ((testEnv none none).md5 []) ⟨[7], "cached text A"⟩)
        "a.txt" []).result
      = (find_clauses (testEnv none none)
        (cachePut emptyCache ((testEnv none none).md5 []) ⟨[7], "cached text B"⟩)
        "a.txt" []).result
     ∧ (find_clauses (testEnv none none)
        (cachePut emptyCache ((testEnv none none).md5 []) ⟨[7], "cached text A"⟩)
        "a.txt" []).calls
      = (find_clauses (testEnv none none)
        (cachePut emptyCache ((testEnv none none).md5 []) ⟨[7], "cached text B"⟩)
        "a.txt" []).calls)
    ∧ (find_clauses (testEnv none none)
        (cachePut emptyCache ((testEnv none none).md5 []) ⟨[7], "cached text A"⟩)
        "a.txt" []).queryTextUsed = some "contract text"
    ∧ (find_clauses (testEnv none none)
        (cachePut emptyCache ((testEnv none none).md5 []) ⟨[7], "cached text A"⟩)
        "a.txt" []).embeddingUsed = some [7]
    ∧ (emptyCache ((testEnv none none).md5 []) = none →
        (find_clauses (testEnv none none) emptyCache "a.txt" []).queryTextUsed
          = some "contract text"
        ∧ (find_clauses (testEnv none none) emptyCache "a.txt" []).embeddingUsed
          = some ((testEnv none none).encodeText "contract text")) :=
  C9_hit_uses_only_embedding (testEnv none none) emptyCache "a.txt" [] [7]
    "cached text A" "cached text B" "contract text" (by decide) rfl

/-- Claim C10: for both upload endpoints the file-extension gate is
case-insensitive - an upload passes exactly when its lowercased filename
ends with one of .txt, .pdf, .docx, .doc, .md - and a failing gate makes
either endpoint answer the 400 error naming the allowed set, issuing no
completion calls and leaving the cache untouched. -/
theorem C10_extension_gate (filename : String) :
    (extensionAllowed filename = true
      ↔ ∃ ext ∈ allowed_extensions, endsWithStr (lowerStr filename) ext = true)
    ∧ (∀ (env : Env) (cache : Cache) (content : Content),
        extensionAllowed filename = false →
        (find_clauses env cache filename content).result
            = FindResult.errorResponse extensionErrorMessage 400
        ∧ (find_clauses env cache filename content).calls = [])
    ∧ (∀ (env : Env) (classify : String → String) (cache : Cache) (content : Content),
        extensionAllowed filename = false →
        (process_contract env classify cache filename content).1
            = ProcessResult.errorResponse extensionErrorMessage 400
        ∧ (process_contract env classify cache filename content).2 = cache) := by
  refine ⟨?_, ?_, ?_⟩
  · simp [extensionAllowed, List.any_eq_true]
  · intro env cache content hfail
    unfold find_clauses
    rw [hfail]
    exact ⟨rfl, rfl⟩
  · intro env classify cache content hfail
    unfold process_contract
    rw [hfail]
    exact ⟨rfl, rfl⟩

/-- Claim C10, witness: uppercase and mixed-case variants of allowed
extensions are accepted; a disallowed extension is rejected by both
endpoints with the 400 error payload. -/
theorem C10_extension_gate_witness :
    extensionAllowed "REPORT.TXT" = true
    ∧ extensionAllowed "Agreement.Docx" = true
    ∧ extensionAllowed "archive.zip" = false
    ∧ (extensionAllowed "REPORT.TXT" = true
        ↔ ∃ ext ∈ allowed_extensions, endsWithStr (lowerStr "REPORT.TXT") ext = true)
    ∧ ((find_clauses (testEnv none none) emptyCache "archive.zip" []).result
          = FindResult.errorResponse extensionErrorMessage 400
        ∧ (find_clauses (testEnv none none) emptyCache "archive.zip" []).calls = [])
    ∧ ((process_contract (testEnv none none) (fun s => s) emptyCache "archive.zip" []).1
          = ProcessResult.errorResponse extensionErrorMessage 400
        ∧ (process_contract (testEnv none none) (fun s => s) emptyCache "archive.zip" []).2
          = emptyCache) :=
  ⟨by decide, by decide, by decide, (C10_extension_gate "REPORT.TXT").1,
    (C10_extension_gate "archive.zip").2.1 (testEnv none none) emptyCache [] (by decide),
    (C10_extension_gate "archive.zip").2.2 (testEnv none none) (fun s => s) emptyCache []
      (by decide)⟩

end ClauseAudit
